import Mathlib

/-!
Shallow embedding of the Life Dashboard tab provider of
`mail/base/content/lifeTabs.js` (namespace `LifeTabs`) and of the variant of
the same provider embedded in `src/unnamed/part_000` (namespace `Part000`),
together with the small part of the tab-management engine (`tabmail.js`, not
part of the sources) that the provider's hooks interact with; the engine
fragments are modelled from the specification and carry a
`Modelled from the spec:` doc comment.

Conventions of the embedding:
* DOM element identity is a `Nat` reference; the mutable attribute state of
  all browser elements lives in a store `Nat → Browser`.
* JavaScript truthiness of an optional string (`args.url || DEFAULT`,
  `tab.browser?.currentURI?.spec`) is `Option String` plus a nonemptiness
  check, since the empty string is falsy.
* Reference identity of tab-info objects (`tab !== tabmail.currentTabInfo`,
  `Array.prototype.indexOf`) is compared through the engine-unique `tabId`.
-/

/-- A URI as exposed by a browser element (`nsIURI`): its `spec` string. -/
structure URI where
  spec : String
deriving Repr, DecidableEq

/-- A browser element: an attribute map (attribute name to value) and an
optional current URI (`browser.currentURI`). -/
structure Browser where
  attrs : List (String × String)
  currentURI : Option URI
deriving Repr, DecidableEq

/-- `element.setAttribute(n, v)`: replaces any previous value of `n`. -/
def Browser.setAttribute (b : Browser) (n v : String) : Browser :=
  { b with attrs := (n, v) :: b.attrs.filter (fun p => p.1 != n) }

/-- `element.removeAttribute(n)`. -/
def Browser.removeAttribute (b : Browser) (n : String) : Browser :=
  { b with attrs := b.attrs.filter (fun p => p.1 != n) }

/-- `element.getAttribute(n)`, as an `Option` (no attribute gives `none`). -/
def Browser.getAttribute (b : Browser) (n : String) : Option String :=
  (b.attrs.find? (fun p => p.1 == n)).map Prod.snd

/-- The mutable state of all browser elements, keyed by element identity. -/
def BrowserStore : Type := Nat → Browser

/-- Point update of a browser store. -/
def updateStore (store : BrowserStore) (i : Nat) (f : Browser → Browser) : BrowserStore :=
  fun j => if j = i then f (store j) else store j

/-- A tab-info object, with the fields the Life provider touches: engine-unique
`tabId` (standing in for object identity), owning mode name (`tab.mode.name`),
`title`, the icon set on `tab.tabNode`, and an optional reference to the
browser element stored in `tab.browser`. -/
structure Tab where
  tabId : Nat
  modeName : String
  title : String
  tabNodeIcon : String
  browser : Option Nat
deriving Repr, DecidableEq

/-- The view of the `tabmail` element that the Life hooks read:
`tabmail.tabInfo` (the global ordered open-tab list),
`tabmail.tabModes.life.tabs` (the open tabs of mode `"life"`), and the
identity of `tabmail.currentTabInfo` (the selected tab), if any. -/
structure TabmailView where
  tabInfo : List Tab
  lifeModeTabs : List Tab
  currentTab : Option Nat
deriving Repr, DecidableEq

/-- Arguments of `openTab(modeName, args)` as the Life provider reads them:
an optional `url` and a `background` flag. -/
structure OpenArgs where
  url : Option String
  background : Bool
deriving Repr, DecidableEq

/-- The record the Life `persistTab` hook returns: a `background` flag and an
optional `url` field. -/
structure PersistState where
  background : Bool
  url : Option String
deriving Repr, DecidableEq

/-- The call `restoreTab` performs into the engine:
`tabmail.openTab(modeName, {background, url?})`. -/
structure OpenTabCall where
  modeName : String
  background : Bool
  url : Option String
deriving Repr, DecidableEq

/-- What a `MailE10SUtils.loadURI` call loads into the browser: either a given
dashboard URL string, or the `LIFE_DASHBOARD_ERROR_PAGE` data URL of
`part_000` (a fixed error document whose markup text no hook ever inspects;
it is a distinct page, not a dashboard URL). -/
inductive LoadedPage where
  | dashboard (url : String)
  | lifeErrorPage
deriving Repr, DecidableEq

/-- The action an `openTab` hook triggers on its browser element: an immediate
`loadURI`, or the deferred `checkBackendAndLoad(tab, url)` health check of the
`part_000` variant. -/
inductive OpenAction where
  | load (p : LoadedPage)
  | checkBackendAndLoad (url : String)
deriving Repr, DecidableEq

/-- Outcome of the `fetch(API_URL + "/health")` probe in `part_000`:
the response was ok, the response was an HTTP error, or the fetch threw
(network error or the 3000 ms abort). -/
inductive HealthResult where
  | ok
  | httpError
  | networkError
deriving Repr, DecidableEq

namespace LifeTabs

/-- `LIFE_DASHBOARD_DEFAULT_URL` of `lifeTabs.js` (braces and apostrophes of
the data URL written as character escapes). -/
def LIFE_DASHBOARD_DEFAULT_URL : String :=
  "data:text/html,<html><head><title>Life Dashboard</title><style>body\x7bfont-family:system-ui,-apple-system,sans-serif;display:flex;justify-content:center;align-items:center;min-height:100vh;margin:0;background:linear-gradient(135deg,%23667eea%200%25,%23764ba2%20100%25);color:white;\x7d</style></head><body><div style=\x27text-align:center\x27><h1>Life Dashboard</h1><p>Browser element loaded successfully!</p><p>Ready for FastAPI backend connection.</p></div></body></html>"

/-- `openTab(tab, args)` of the `life` mode in `lifeTabs.js`: sets the tab
icon and title, stores `document.getElementById("lifeTabBrowser")` (passed
here as `lifeBrowserElem`) into `tab.browser`, and, if that element exists,
sets its `type` attribute and loads `args.url || LIFE_DASHBOARD_DEFAULT_URL`.
Returns the updated store, the updated tab, and the triggered load action. -/
def openTab (lifeBrowserElem : Option Nat) (store : BrowserStore) (tab : Tab)
    (args : OpenArgs) : BrowserStore × Tab × Option OpenAction :=
  let tab := { tab with
    tabNodeIcon := "chrome://messenger/skin/icons/new/compact/calendar.svg",
    title := "Life Dashboard",
    browser := lifeBrowserElem }
  match lifeBrowserElem with
  | none => (store, tab, none)
  | some bid =>
    let store := updateStore store bid (fun b => b.setAttribute "type" "content")
    let url := match args.url with
      | some u => if u ≠ "" then u else LIFE_DASHBOARD_DEFAULT_URL
      | none => LIFE_DASHBOARD_DEFAULT_URL
    (store, tab, some (.load (.dashboard url)))

/-- `showTab(tab)`: if the tab has a browser, set `type="content"` and
`primary="true"` on it. -/
def showTab (store : BrowserStore) (tab : Tab) : BrowserStore :=
  match tab.browser with
  | none => store
  | some bid =>
    updateStore store bid
      (fun b => (b.setAttribute "type" "content").setAttribute "primary" "true")

/-- `closeTab(tab)`: empty body, no effect. -/
def closeTab (tab : Tab) : Tab := tab

/-- `persistTab(tab)`: records `background := tab !== tabmail.currentTabInfo`,
and a `url` field exactly when `tab.browser?.currentURI?.spec` is truthy
(browser present, `currentURI` present, and its `spec` a nonempty string). -/
def persistTab (store : BrowserStore) (tm : TabmailView) (tab : Tab) : PersistState :=
  let background := tm.currentTab != some tab.tabId
  let url := match tab.browser with
    | some bid =>
      match (store bid).currentURI with
      | some u => if u.spec ≠ "" then some u.spec else none
      | none => none
    | none => none
  { background := background, url := url }

/-- `restoreTab(tabmail, state)`: calls
`tabmail.openTab("life", {background: state.background})`; the persisted
`url` is deliberately not passed (commented out in the source). -/
def restoreTab (state : PersistState) : OpenTabCall :=
  { modeName := "life", background := state.background, url := none }

/-- `onTitleChanged(tab)`: unconditionally sets the title to
`"Life Dashboard"`. -/
def onTitleChanged (tab : Tab) : Tab :=
  { tab with title := "Life Dashboard" }

/-- `shouldSwitchTo(args)`: if `tabmail.tabModes.life.tabs[0]` exists, return
`tabmail.tabInfo.indexOf` of it (`-1` when absent from `tabInfo`), else
return `-1`. `args` is ignored. -/
def shouldSwitchTo (tm : TabmailView) (args : OpenArgs) : Int :=
  match tm.lifeModeTabs.head? with
  | some t =>
    match tm.tabInfo.findIdx? (fun x => x.tabId == t.tabId) with
    | some i => (i : Int)
    | none => -1
  | none => -1

/-- `getBrowser(tab)`: `tab.browser || document.getElementById("lifeTabBrowser")`. -/
def getBrowser (lifeBrowserElem : Option Nat) (tab : Tab) : Option Nat :=
  match tab.browser with
  | some bid => some bid
  | none => lifeBrowserElem

/-- `supportsCommand(aCommand)`: constant `false`. -/
def supportsCommand (aCommand : String) : Bool := false

/-- `isCommandEnabled(aCommand)`: constant `false`. -/
def isCommandEnabled (aCommand : String) : Bool := false

/-- `doCommand(aCommand)`: empty body; threads the reachable state (the tab
and the browser store) through unchanged. -/
def doCommand (aCommand : String) (tab : Tab) (store : BrowserStore) :
    Tab × BrowserStore := (tab, store)

/-- Type-level `saveTabState(tab)` of `lifeTabType`: if the tab has a
browser, set `type="content"` and remove the `primary` attribute. -/
def saveTabState (store : BrowserStore) (tab : Tab) : BrowserStore :=
  match tab.browser with
  | none => store
  | some bid =>
    updateStore store bid
      (fun b => (b.setAttribute "type" "content").removeAttribute "primary")

end LifeTabs

/-- A mode descriptor as declared by the Life provider: the style `type`
string and the optional `maxTabs` cap. -/
structure ModeDescriptor where
  type : String
  maxTabs : Option Nat
deriving Repr, DecidableEq

/-- A tab-type descriptor as the registration path reads it: unique `name`,
optional shared-panel id, optional per-tab-panel factory name, and the
declared modes. -/
structure TabTypeDescriptor where
  name : String
  panelId : Option String
  perTabPanel : Option String
  modes : List (String × ModeDescriptor)
deriving Repr, DecidableEq

/-- The `lifeTabType` descriptor of `lifeTabs.js`: shared panel
`"lifeTabPanel"`, no `perTabPanel` field, one mode `"life"` with
`maxTabs = 1`. -/
def lifeTabType : TabTypeDescriptor :=
  { name := "life",
    panelId := some "lifeTabPanel",
    perTabPanel := none,
    modes := [("life", { type := "life", maxTabs := some 1 })] }

namespace Part000

/-- `LIFE_DASHBOARD_API_URL` of the `part_000` variant. -/
def LIFE_DASHBOARD_API_URL : String := "http://localhost:8000"

/-- `openTab(tab, args)` of the `part_000` variant: identical to the
`lifeTabs.js` hook except that the default URL is
`LIFE_DASHBOARD_API_URL` and the load is deferred to
`this.checkBackendAndLoad(tab, url)` instead of being performed directly. -/
def openTab (lifeBrowserElem : Option Nat) (store : BrowserStore) (tab : Tab)
    (args : OpenArgs) : BrowserStore × Tab × Option OpenAction :=
  let tab := { tab with
    tabNodeIcon := "chrome://messenger/skin/icons/new/compact/calendar.svg",
    title := "Life Dashboard",
    browser := lifeBrowserElem }
  match lifeBrowserElem with
  | none => (store, tab, none)
  | some bid =>
    let store := updateStore store bid (fun b => b.setAttribute "type" "content")
    let url := match args.url with
      | some u => if u ≠ "" then u else LIFE_DASHBOARD_API_URL
      | none => LIFE_DASHBOARD_API_URL
    (store, tab, some (.checkBackendAndLoad url))

/-- `checkBackendAndLoad(tab, url)` of the `part_000` variant, resolved at a
given health-probe outcome: an ok response loads `url`, an HTTP error or a
thrown fetch loads `LIFE_DASHBOARD_ERROR_PAGE`. -/
def checkBackendAndLoad (h : HealthResult) (url : String) : LoadedPage :=
  match h with
  | .ok => .dashboard url
  | .httpError => .lifeErrorPage
  | .networkError => .lifeErrorPage

/-- `showTab(tab)` of the `part_000` variant (same text as `lifeTabs.js`). -/
def showTab (store : BrowserStore) (tab : Tab) : BrowserStore :=
  match tab.browser with
  | none => store
  | some bid =>
    updateStore store bid
      (fun b => (b.setAttribute "type" "content").setAttribute "primary" "true")

/-- `closeTab(tab)` of the `part_000` variant: empty body. -/
def closeTab (tab : Tab) : Tab := tab

/-- `persistTab(tab)` of the `part_000` variant (same text). -/
def persistTab (store : BrowserStore) (tm : TabmailView) (tab : Tab) : PersistState :=
  let background := tm.currentTab != some tab.tabId
  let url := match tab.browser with
    | some bid =>
      match (store bid).currentURI with
      | some u => if u.spec ≠ "" then some u.spec else none
      | none => none
    | none => none
  { background := background, url := url }

/-- `restoreTab(tabmail, state)` of the `part_000` variant (same text). -/
def restoreTab (state : PersistState) : OpenTabCall :=
  { modeName := "life", background := state.background, url := none }

/-- `onTitleChanged(tab)` of the `part_000` variant (same text). -/
def onTitleChanged (tab : Tab) : Tab :=
  { tab with title := "Life Dashboard" }

/-- `shouldSwitchTo(args)` of the `part_000` variant (same text). -/
def shouldSwitchTo (tm : TabmailView) (args : OpenArgs) : Int :=
  match tm.lifeModeTabs.head? with
  | some t =>
    match tm.tabInfo.findIdx? (fun x => x.tabId == t.tabId) with
    | some i => (i : Int)
    | none => -1
  | none => -1

/-- `getBrowser(tab)` of the `part_000` variant (same text). -/
def getBrowser (lifeBrowserElem : Option Nat) (tab : Tab) : Option Nat :=
  match tab.browser with
  | some bid => some bid
  | none => lifeBrowserElem

/-- `supportsCommand(aCommand)` of the `part_000` variant. -/
def supportsCommand (aCommand : String) : Bool := false

/-- `isCommandEnabled(aCommand)` of the `part_000` variant. -/
def isCommandEnabled (aCommand : String) : Bool := false

/-- `doCommand(aCommand)` of the `part_000` variant: empty body. -/
def doCommand (aCommand : String) (tab : Tab) (store : BrowserStore) :
    Tab × BrowserStore := (tab, store)

/-- Type-level `saveTabState(tab)` of the `part_000` variant (same text). -/
def saveTabState (store : BrowserStore) (tab : Tab) : BrowserStore :=
  match tab.browser with
  | none => store
  | some bid =>
    updateStore store bid
      (fun b => (b.setAttribute "type" "content").removeAttribute "primary")

end Part000

/-- The engine state the claims need: whether the `"life"` mode is registered,
the ordered open-tab list `tabInfo`, the index of the selected tab, and the
next fresh tab id. -/
structure EngineState where
  lifeRegistered : Bool
  tabInfo : List Tab
  currentIndex : Option Nat
  nextId : Nat
deriving Repr, DecidableEq

/-- The currently selected tab of an engine state, if any. -/
def selectedTab (st : EngineState) : Option Tab :=
  st.currentIndex.bind (fun i => st.tabInfo.get? i)

namespace lifeTabMonitor

/-- `monitorName` of `lifeTabMonitor`. -/
def monitorName : String := "lifeTabMonitor"

/-- `onTabTitleChanged()` of `lifeTabMonitor`: empty body, no effect. -/
def onTabTitleChanged (aTab : Tab) (st : EngineState) : EngineState := st

/-- `onTabOpened()` of `lifeTabMonitor`: empty body, no effect. -/
def onTabOpened (aTab : Tab) (st : EngineState) : EngineState := st

/-- `onTabClosing()` of `lifeTabMonitor`: empty body, no effect. -/
def onTabClosing (aTab : Tab) (st : EngineState) : EngineState := st

/-- `onTabPersist()` of `lifeTabMonitor`: empty body, no effect. -/
def onTabPersist (aTab : Tab) (st : EngineState) : EngineState := st

/-- `onTabRestored()` of `lifeTabMonitor`: empty body, no effect. -/
def onTabRestored (aTab : Tab) (st : EngineState) : EngineState := st

/-- `onTabSwitched(aNewTab, aOldTab)` of `lifeTabMonitor`: tests whether the
old and new tabs have mode name `"life"` (through the optional chain
`aTab?.mode.name`), but both branch bodies are empty, so the state is
returned unchanged either way. -/
def onTabSwitched (aNewTab aOldTab : Option Tab) (st : EngineState) : EngineState :=
  let st1 := if (match aOldTab with
    | some t => t.modeName == "life"
    | none => false) then st else st
  let st2 := if (match aNewTab with
    | some t => t.modeName == "life"
    | none => false) then st1 else st1
  st2

end lifeTabMonitor

/-- Registration errors of the engine's `registerTabType`. -/
inductive RegistrationError where
  | duplicateTypeName
  | duplicateModeName
  | invalidDescriptor
deriving Repr, DecidableEq

/-- Modelled from the spec: the presentation-strategy validation of
`registerTabType` (`tabmail.js` is not among the sources). Registration
fails with `InvalidDescriptor` "if neither or both presentation strategies
are set"; otherwise this check passes. -/
def presentationCheck (d : TabTypeDescriptor) : Except RegistrationError Unit :=
  if (d.panelId.isSome && d.perTabPanel.isSome)
      || (!d.panelId.isSome && !d.perTabPanel.isSome) then
    .error .invalidDescriptor
  else
    .ok ()

/-- Lifecycle errors of the engine's open path. -/
inductive EngineError where
  | unknownMode
  | modeCapacityExceeded
deriving Repr, DecidableEq

/-- The `tabmail` view an engine state presents to the Life hooks: the
per-mode list `tabModes.life.tabs` holds exactly the open tabs whose mode is
`"life"`, and `currentTabInfo` is the selected tab. -/
def tabmailViewOf (st : EngineState) : TabmailView :=
  { tabInfo := st.tabInfo,
    lifeModeTabs := st.tabInfo.filter (fun t => t.modeName == "life"),
    currentTab := (selectedTab st).map Tab.tabId }

/-- Modelled from the spec: the LifecycleDispatcher Open transition of
`openTab`, specialized to the registered `"life"` mode (`tabmail.js` is not
among the sources). Resolve the mode (`UnknownMode` if not registered); if
the mode's `shouldSwitchTo(args)` returns a non-negative index, abort
creation and Switch to that index, returning the existing tab's handle;
otherwise fail with `ModeCapacityExceeded` when the mode's open count has
reached `maxTabs = 1`; otherwise create the tab (running the mode's
`openTab` hook, which sets the title and icon), append it to the collection,
and Switch to it unless opened in background. -/
def openLifeTab (st : EngineState) (args : OpenArgs) : EngineState × Except EngineError Tab :=
  if st.lifeRegistered = false then
    (st, .error .unknownMode)
  else
    let idx := LifeTabs.shouldSwitchTo (tabmailViewOf st) args
    if 0 ≤ idx then
      match st.tabInfo.get? idx.toNat with
      | some t => ({ st with currentIndex := some idx.toNat }, .ok t)
      | none => (st, .error .unknownMode)
    else if 1 ≤ (st.tabInfo.filter (fun t => t.modeName == "life")).length then
      (st, .error .modeCapacityExceeded)
    else
      let t : Tab := {
        tabId := st.nextId, modeName := "life",
        title := "Life Dashboard",
        tabNodeIcon := "chrome://messenger/skin/icons/new/compact/calendar.svg",
        browser := none }
      let tabs := st.tabInfo ++ [t]
      ({ st with
          tabInfo := tabs, nextId := st.nextId + 1,
          currentIndex := if args.background then st.currentIndex
            else some (tabs.length - 1) }, .ok t)

/-! ### Concrete sample instances used by witnesses and counterexamples -/

/-- A sample life tab holding browser element `0`. -/
def tabW : Tab :=
  { tabId := 0, modeName := "life", title := "Life Dashboard",
    tabNodeIcon := "", browser := some 0 }

/-- A second sample tab holding the distinct browser element `1`. -/
def tabW2 : Tab :=
  { tabId := 1, modeName := "mail3PaneTab", title := "Inbox",
    tabNodeIcon := "", browser := some 1 }

/-- A sample browser store in which every element carries `primary="true"`
and no current URI. -/
def storeW : BrowserStore :=
  fun _ => { attrs := [("primary", "true")], currentURI := none }

/-- A browser store in which every element exposes a current URI whose `spec`
is the empty string. -/
def storeCE : BrowserStore :=
  fun _ => { attrs := [], currentURI := some { spec := "" } }

/-- A sample tabmail view with the single life tab `tabW` open and selected. -/
def tmW : TabmailView :=
  { tabInfo := [tabW], lifeModeTabs := [tabW], currentTab := some 0 }

/-- The tabmail view with no open tabs. -/
def tmEmpty : TabmailView :=
  { tabInfo := [], lifeModeTabs := [], currentTab := none }

/-- The composition restore-after-save for one life tab: the `openTab` call
that `restoreTab` performs on the record `persistTab` produced. -/
def roundTripCall (store : BrowserStore) (tm : TabmailView) (tab : Tab) : OpenTabCall :=
  LifeTabs.restoreTab (LifeTabs.persistTab store tm tab)

/-- Replaying the restore-after-save call through the (spec-modelled) engine
open path, into a fresh session in which the life mode is registered. -/
def roundTripOpen (store : BrowserStore) (tm : TabmailView) (tab : Tab) :
    EngineState × Except EngineError Tab :=
  openLifeTab { lifeRegistered := true, tabInfo := [], currentIndex := none, nextId := 0 }
    { url := (roundTripCall store tm tab).url,
      background := (roundTripCall store tm tab).background }

/-! ### Helper lemmas about browser attributes and the store -/

theorem List.find?_filter_bne_key (n : String) (l : List (String × String)) :
    (l.filter (fun p => p.1 != n)).find? (fun p => p.1 == n) = none := by
  induction l with
  | nil => rfl
  | cons a l ih =>
    by_cases h : a.1 = n
    · simp [List.filter_cons, h, ih]
    · simp [List.filter_cons, h, List.find?_cons, ih]

theorem Browser.getAttribute_setAttribute_same (b : Browser) (n v : String) :
    (b.setAttribute n v).getAttribute n = some v := by
  simp [Browser.setAttribute, Browser.getAttribute, List.find?_cons]

theorem Browser.getAttribute_removeAttribute_same (b : Browser) (n : String) :
    (b.removeAttribute n).getAttribute n = none := by
  simp [Browser.removeAttribute, Browser.getAttribute, List.find?_filter_bne_key]

theorem updateStore_same (store : BrowserStore) (i : Nat) (f : Browser → Browser) :
    updateStore store i f i = f (store i) := by
  simp [updateStore]

theorem updateStore_other (store : BrowserStore) (i j : Nat) (f : Browser → Browser)
    (h : j ≠ i) : updateStore store i f j = store j := by
  simp [updateStore, h]

theorem List.findIdx?_found {α : Type} (p : α → Bool) (l : List α)
    (hu : ∃ u ∈ l, p u = true) :
    ∃ i, l.findIdx? p = some i ∧ ∃ u, l.get? i = some u ∧ p u = true := by
  induction l with
  | nil => simp at hu
  | cons a l ih =>
    by_cases ha : p a = true
    · exact ⟨0, by simp [List.findIdx?_cons, ha], a, rfl, ha⟩
    · obtain ⟨u, hmem, hp⟩ := hu
      rcases List.mem_cons.mp hmem with h | h
      · exact absurd (h ▸ hp) ha
      · obtain ⟨i, hfind, u2, hget, hp2⟩ := ih ⟨u, h, hp⟩
        refine ⟨i + 1, ?_, u2, by simpa using hget, hp2⟩
        simp [List.findIdx?_cons, ha, hfind]

/-! ### The claims -/

/-- C5: the `lifeTabType` descriptor declares the shared-panel strategy
(`panelId = "lifeTabPanel"`), declares no per-tab-panel strategy, and hence
passes the registration check that exactly one presentation strategy is set,
so registering it does not fail with `InvalidDescriptor` on that ground. -/
theorem C5_lifeTabType_one_presentation_strategy :
    lifeTabType.panelId = some "lifeTabPanel" ∧
    lifeTabType.perTabPanel = none ∧
    presentationCheck lifeTabType = .ok () :=
  ⟨rfl, rfl, rfl⟩

/-- C6: the life mode's `onTitleChanged` hook sets the title to the constant
string `"Life Dashboard"` for every tab, regardless of the prior title, and
is idempotent: applying it twice equals applying it once. -/
theorem C6_onTitleChanged_constant_and_idempotent :
    ∀ tab : Tab,
      (LifeTabs.onTitleChanged tab).title = "Life Dashboard" ∧
      LifeTabs.onTitleChanged (LifeTabs.onTitleChanged tab) = LifeTabs.onTitleChanged tab :=
  fun _ => ⟨rfl, rfl⟩

/-- C7: for every command name the life mode's `supportsCommand` and
`isCommandEnabled` return `false` (the command is reported as unsupported),
and `doCommand` returns normally leaving the tab and the browser store
unchanged. -/
theorem C7_command_routing_unsupported_and_harmless :
    ∀ aCommand : String,
      LifeTabs.supportsCommand aCommand = false ∧
      LifeTabs.isCommandEnabled aCommand = false ∧
      ∀ (tab : Tab) (store : BrowserStore),
        LifeTabs.doCommand aCommand tab store = (tab, store) :=
  fun _ => ⟨rfl, rfl, fun _ _ => rfl⟩

/-- C8: noninterference of the persisted `url` field on restore: two persisted
records that agree on `background` (and so differ at most in `url`) make
`restoreTab` perform exactly the same `openTab` call. -/
theorem C8_restore_ignores_persisted_url :
    ∀ s1 s2 : PersistState, s1.background = s2.background →
      LifeTabs.restoreTab s1 = LifeTabs.restoreTab s2 := by
  intro s1 s2 h
  simp [LifeTabs.restoreTab, h]

/-- Witness for C8 at two concrete records differing only in `url`. -/
theorem C8_restore_ignores_persisted_url_witness :
    (PersistState.mk true none).background
      = (PersistState.mk true (some "http://localhost:8000/dashboard")).background ∧
    LifeTabs.restoreTab ⟨true, none⟩
      = LifeTabs.restoreTab ⟨true, some "http://localhost:8000/dashboard"⟩ :=
  ⟨rfl, C8_restore_ignores_persisted_url ⟨true, none⟩
    ⟨true, some "http://localhost:8000/dashboard"⟩ rfl⟩

/-- C9: the registered `lifeTabMonitor` is a pure observer: each of its six
notification handlers returns normally on every input and leaves the engine
state (and with it every open tab) unchanged, so monitor notification never
alters or aborts a lifecycle transition. -/
theorem C9_lifeTabMonitor_is_pure_observer :
    (∀ (t : Tab) (st : EngineState), lifeTabMonitor.onTabTitleChanged t st = st) ∧
    (∀ (t : Tab) (st : EngineState), lifeTabMonitor.onTabOpened t st = st) ∧
    (∀ (t : Tab) (st : EngineState), lifeTabMonitor.onTabClosing t st = st) ∧
    (∀ (t : Tab) (st : EngineState), lifeTabMonitor.onTabPersist t st = st) ∧
    (∀ (t : Tab) (st : EngineState), lifeTabMonitor.onTabRestored t st = st) ∧
    (∀ (aNewTab aOldTab : Option Tab) (st : EngineState),
      lifeTabMonitor.onTabSwitched aNewTab aOldTab st = st) := by
  refine ⟨fun _ _ => rfl, fun _ _ => rfl, fun _ _ => rfl, fun _ _ => rfl,
    fun _ _ => rfl, ?_⟩
  intro aNewTab aOldTab st
  simp [lifeTabMonitor.onTabSwitched]

/-- C3 counterexample: a tab whose browser exposes a current URI (the chain
`tab.browser?.currentURI` is present) but whose `spec` is the empty string;
`persistTab` omits the `url` field there, so "contains a url field if and
only if the tab's browser element exposes a current URI" fails as stated. -/
theorem C3_counterexample_empty_spec :
    tabW.browser = some 0 ∧
    (storeCE 0).currentURI.isSome = true ∧
    (LifeTabs.persistTab storeCE tmW tabW).url = none :=
  ⟨rfl, rfl, rfl⟩

/-- C3 (amended): `persistTab` returns a record whose `background` field is
true exactly when the tab is not the currently selected tab, and which
contains a `url` field if and only if the tab's browser element exposes a
current URI whose `spec` is a nonempty string (JavaScript truthiness of
`tab.browser?.currentURI?.spec` makes an empty spec count as absent).
`persistTab` is a total pure function of the store, the tabmail view and the
tab, so it never fails and never mutates the tab. -/
theorem C3_persistTab_fields :
    ∀ (store : BrowserStore) (tm : TabmailView) (tab : Tab),
      ((LifeTabs.persistTab store tm tab).background = true ↔
        tm.currentTab ≠ some tab.tabId) ∧
      (∀ s : String, (LifeTabs.persistTab store tm tab).url = some s ↔
        (∃ bid, tab.browser = some bid ∧
          ∃ u, (store bid).currentURI = some u ∧ u.spec = s ∧ s ≠ "")) := by
  intro store tm tab
  constructor
  · simp [LifeTabs.persistTab]
  · intro s
    cases hb : tab.browser with
    | none => simp [LifeTabs.persistTab, hb]
    | some bid =>
      cases hu : (store bid).currentURI with
      | none => simp [LifeTabs.persistTab, hb, hu]
      | some u =>
        by_cases hs : u.spec = ""
        · simp [LifeTabs.persistTab, hb, hu, hs]
          intro h
          exact h.symm
        · simp [LifeTabs.persistTab, hb, hu, hs]
          rintro rfl
          exact hs

/-- C4: the type-level `saveTabState` hook leaves the outgoing tab's browser
without the `primary` attribute, the life mode's `showTab` hook leaves the
incoming tab's browser with `primary="true"`, and when the outgoing hook
runs before the incoming one on distinct browsers the outgoing browser ends
without `primary` — so at most one of the two browsers carries `primary`
after the Switch. -/
theorem C4_primary_attribute_exclusivity :
    ∀ (store : BrowserStore) (tOut tIn : Tab) (b1 : Nat),
      tOut.browser = some b1 →
      ((LifeTabs.saveTabState store tOut b1).getAttribute "primary" = none) ∧
      (∀ b2, tIn.browser = some b2 →
        ((LifeTabs.showTab (LifeTabs.saveTabState store tOut) tIn) b2).getAttribute
          "primary" = some "true") ∧
      (∀ b2, tIn.browser = some b2 → b1 ≠ b2 →
        ((LifeTabs.showTab (LifeTabs.saveTabState store tOut) tIn) b1).getAttribute
          "primary" = none) ∧
      (tIn.browser = none →
        ((LifeTabs.showTab (LifeTabs.saveTabState store tOut) tIn) b1).getAttribute
          "primary" = none) := by
  intro store tOut tIn b1 hOut
  have hsave : LifeTabs.saveTabState store tOut b1
      = ((store b1).setAttribute "type" "content").removeAttribute "primary" := by
    simp [LifeTabs.saveTabState, hOut, updateStore_same]
  have hsaveNone : (LifeTabs.saveTabState store tOut b1).getAttribute "primary" = none := by
    rw [hsave]
    exact Browser.getAttribute_removeAttribute_same _ _
  refine ⟨hsaveNone, ?_, ?_, ?_⟩
  · intro b2 hIn
    simp only [LifeTabs.showTab, hIn, updateStore_same]
    exact Browser.getAttribute_setAttribute_same _ _ _
  · intro b2 hIn hne
    simp only [LifeTabs.showTab, hIn]
    rw [updateStore_other _ _ _ _ hne]
    exact hsaveNone
  · intro hIn
    simp only [LifeTabs.showTab, hIn]
    exact hsaveNone

/-- Witness for C4 at a concrete store and a concrete pair of tabs with
distinct browsers, starting from a store where every browser carries
`primary="true"`. -/
theorem C4_primary_attribute_exclusivity_witness :
    tabW.browser = some 0 ∧ tabW2.browser = some 1 ∧
    (LifeTabs.saveTabState storeW tabW 0).getAttribute "primary" = none ∧
    ((LifeTabs.showTab (LifeTabs.saveTabState storeW tabW) tabW2) 1).getAttribute
      "primary" = some "true" ∧
    ((LifeTabs.showTab (LifeTabs.saveTabState storeW tabW) tabW2) 0).getAttribute
      "primary" = none := by
  refine ⟨rfl, rfl, ?_, ?_, ?_⟩
  · exact (C4_primary_attribute_exclusivity storeW tabW tabW2 0 rfl).1
  · exact (C4_primary_attribute_exclusivity storeW tabW tabW2 0 rfl).2.1 1 rfl
  · exact (C4_primary_attribute_exclusivity storeW tabW tabW2 0 rfl).2.2.1 1 rfl
      (by decide)

/-- C1: the life mode's `shouldSwitchTo(args)` returns `-1` whenever no life
tab is open, and otherwise returns the non-negative index in the global
`tabInfo` list of the already-open life tab (for every `args`, provided that
tab is actually in `tabInfo`); consequently, starting a fresh engine with
the life mode registered, a first `openTab("life", args)` creates the tab
and a second call switches to it and returns the same handle, leaving the
tab-collection length at 1. -/
theorem C1_shouldSwitchTo_single_instance :
    lifeTabType.modes = [("life", { type := "life", maxTabs := some 1 })] ∧
    (∀ (tm : TabmailView) (args : OpenArgs),
      tm.lifeModeTabs = [] → LifeTabs.shouldSwitchTo tm args = -1) ∧
    (∀ (tm : TabmailView) (args : OpenArgs) (t : Tab),
      tm.lifeModeTabs.head? = some t →
      (∃ u ∈ tm.tabInfo, u.tabId = t.tabId) →
      ∃ i : Nat, LifeTabs.shouldSwitchTo tm args = (i : Int) ∧
        ∃ u, tm.tabInfo.get? i = some u ∧ u.tabId = t.tabId) ∧
    (∀ args1 args2 : OpenArgs,
      ∃ t : Tab,
        (openLifeTab ⟨true, [], none, 0⟩ args1).2 = .ok t ∧
        (openLifeTab (openLifeTab ⟨true, [], none, 0⟩ args1).1 args2).2 = .ok t ∧
        (openLifeTab (openLifeTab ⟨true, [], none, 0⟩ args1).1 args2).1.tabInfo.length
          = 1) := by
  refine ⟨rfl, ?_, ?_, ?_⟩
  · intro tm args h
    simp [LifeTabs.shouldSwitchTo, h]
  · intro tm args t hhead hmem
    obtain ⟨u, humem, huid⟩ := hmem
    obtain ⟨i, hfind, u2, hget, hp2⟩ :=
      List.findIdx?_found (fun x => x.tabId == t.tabId) tm.tabInfo
        ⟨u, humem, by simpa using huid⟩
    refine ⟨i, ?_, u2, hget, by simpa using hp2⟩
    simp [LifeTabs.shouldSwitchTo, hhead, hfind]
  · intro args1 args2
    obtain ⟨u1, b1⟩ := args1
    obtain ⟨u2, b2⟩ := args2
    cases b1 <;> cases b2 <;> exact ⟨_, rfl, rfl, rfl⟩

/-- Witness for C1 at a concrete tabmail view with no life tab and at one
with the single open life tab `tabW`. -/
theorem C1_shouldSwitchTo_single_instance_witness :
    LifeTabs.shouldSwitchTo tmEmpty ⟨none, false⟩ = -1 ∧
    (∃ i : Nat, LifeTabs.shouldSwitchTo tmW ⟨none, false⟩ = (i : Int) ∧
      ∃ u, tmW.tabInfo.get? i = some u ∧ u.tabId = tabW.tabId) :=
  ⟨C1_shouldSwitchTo_single_instance.2.1 tmEmpty ⟨none, false⟩ rfl,
   C1_shouldSwitchTo_single_instance.2.2.1 tmW ⟨none, false⟩ tabW rfl
     ⟨tabW, by simp [tmW], rfl⟩⟩

/-- C2: feeding the record produced by `persistTab` back into `restoreTab`
invokes the engine's `openTab` with mode name `"life"` and a background flag
equal to whether the tab was unselected at save time; replaying that call
through the (spec-modelled) engine open path of a fresh session in which the
life mode is still registered reproduces an open life tab whose
selected/background status matches the status at save time. -/
theorem C2_restore_after_save_round_trip :
    ∀ (store : BrowserStore) (tm : TabmailView) (tab : Tab),
      (roundTripCall store tm tab).modeName = "life" ∧
      ((roundTripCall store tm tab).background = true ↔
        tm.currentTab ≠ some tab.tabId) ∧
      ∃ t : Tab,
        (roundTripOpen store tm tab).2 = .ok t ∧
        t.modeName = "life" ∧
        (selectedTab (roundTripOpen store tm tab).1 = some t ↔
          tm.currentTab = some tab.tabId) := by
  intro store tm tab
  have key : ∀ b : Bool, ∃ t : Tab,
      (openLifeTab ⟨true, [], none, 0⟩ ⟨none, b⟩).2 = .ok t ∧
      t.modeName = "life" ∧
      ((selectedTab (openLifeTab ⟨true, [], none, 0⟩ ⟨none, b⟩).1 = some t) ↔
        b = false) := by
    intro b
    cases b
    · exact ⟨_, rfl, rfl, by decide⟩
    · exact ⟨_, rfl, rfl, by decide⟩
  have hbg : ((roundTripCall store tm tab).background = false) ↔
      tm.currentTab = some tab.tabId := by
    simp [roundTripCall, LifeTabs.restoreTab, LifeTabs.persistTab]
  refine ⟨rfl, ?_, ?_⟩
  · simp [roundTripCall, LifeTabs.restoreTab, LifeTabs.persistTab]
  · obtain ⟨t, h1, h2, h3⟩ := key (roundTripCall store tm tab).background
    exact ⟨t, h1, h2, h3.trans hbg⟩

/-- C10: the two copies of the life tab type define extensionally equal
`showTab`, `closeTab`, `saveTabState`, `persistTab`, `restoreTab`,
`onTitleChanged`, `shouldSwitchTo`, `getBrowser`, `supportsCommand`,
`isCommandEnabled` and `doCommand` hooks; they differ in the `openTab` path:
the `part_000` variant defers the load to a backend health check (default
URL `http://localhost:8000`) and an unhealthy backend makes it load the
error page, which is never the page the `lifeTabs.js` copy loads. -/
theorem C10_two_copies_extensionally_equal_hooks :
    (∀ (store : BrowserStore) (tab : Tab),
      Part000.showTab store tab = LifeTabs.showTab store tab) ∧
    (∀ tab, Part000.closeTab tab = LifeTabs.closeTab tab) ∧
    (∀ (store : BrowserStore) (tab : Tab),
      Part000.saveTabState store tab = LifeTabs.saveTabState store tab) ∧
    (∀ (store : BrowserStore) (tm : TabmailView) (tab : Tab),
      Part000.persistTab store tm tab = LifeTabs.persistTab store tm tab) ∧
    (∀ s, Part000.restoreTab s = LifeTabs.restoreTab s) ∧
    (∀ tab, Part000.onTitleChanged tab = LifeTabs.onTitleChanged tab) ∧
    (∀ (tm : TabmailView) (args : OpenArgs),
      Part000.shouldSwitchTo tm args = LifeTabs.shouldSwitchTo tm args) ∧
    (∀ (e : Option Nat) (tab : Tab),
      Part000.getBrowser e tab = LifeTabs.getBrowser e tab) ∧
    (∀ c, Part000.supportsCommand c = LifeTabs.supportsCommand c) ∧
    (∀ c, Part000.isCommandEnabled c = LifeTabs.isCommandEnabled c) ∧
    (∀ (c : String) (tab : Tab) (store : BrowserStore),
      Part000.doCommand c tab store = LifeTabs.doCommand c tab store) ∧
    ((Part000.openTab (some 0) storeW tabW ⟨none, false⟩).2.2 =
        some (.checkBackendAndLoad Part000.LIFE_DASHBOARD_API_URL) ∧
      (LifeTabs.openTab (some 0) storeW tabW ⟨none, false⟩).2.2 =
        some (.load (.dashboard LifeTabs.LIFE_DASHBOARD_DEFAULT_URL)) ∧
      Part000.checkBackendAndLoad .networkError Part000.LIFE_DASHBOARD_API_URL =
        .lifeErrorPage ∧
      ∀ url : String, LoadedPage.dashboard url ≠ .lifeErrorPage) :=
  ⟨fun _ _ => rfl, fun _ => rfl, fun _ _ => rfl, fun _ _ _ => rfl, fun _ => rfl,
   fun _ => rfl, fun _ _ => rfl, fun _ _ => rfl, fun _ => rfl, fun _ => rfl,
   fun _ _ _ => rfl,
   rfl, rfl, rfl, fun url h => LoadedPage.noConfusion h⟩
